import Mathlib

/-!
Verification development for the RetroLink repository: a shallow embedding of
the session controller (App.tsx message handlers), the input bridge and
virtual device injector (engine/VirtualConsole.ts), the local input sampler
(services/inputService.ts) and the audio router (services/audioService.ts),
together with theorems settling the specification claims about them.
-/

namespace RetroLink

/-- `ConnectionRole` enum from types.ts. -/
inductive ConnectionRole
  | HOST
  | GUEST
  | NONE
deriving DecidableEq, Repr

/-- `Platform` enum from types.ts. -/
inductive Platform
  | NES
  | SNES
  | GB
  | GBA
  | GENESIS
  | PSX
deriving DecidableEq, Repr

/-- `ControllerInput` from types.ts: up/down/left/right/a/b/start/select are
required booleans, x/y/l/r are optional (`boolean | undefined`), modelled as
`Option Bool` with `none` for `undefined`. -/
structure ControllerInput where
  up : Bool
  down : Bool
  left : Bool
  right : Bool
  a : Bool
  b : Bool
  x : Option Bool
  y : Option Bool
  l : Option Bool
  r : Option Bool
  start : Bool
  select : Bool
deriving DecidableEq, Repr

/-- One entry of the `P2_MAPPING` table in VirtualConsole.ts. -/
structure KeyId where
  key : String
  code : String
  keyCode : Nat
  retroarchKey : String
deriving DecidableEq, Repr

/-- The logical buttons that index the `P2_MAPPING` table. -/
inductive Button
  | up
  | down
  | left
  | right
  | a
  | b
  | x
  | y
  | start
  | select
  | l
  | r
deriving DecidableEq, Repr

/-- The fixed `P2_MAPPING` table of VirtualConsole.ts (lines 8-21), verbatim. -/
def P2_MAPPING : Button → KeyId
  | .up => ⟨"i", "KeyI", 73, "i"⟩
  | .down => ⟨"k", "KeyK", 75, "k"⟩
  | .left => ⟨"j", "KeyJ", 74, "j"⟩
  | .right => ⟨"l", "KeyL", 76, "l"⟩
  | .a => ⟨"m", "KeyM", 77, "m"⟩
  | .b => ⟨"n", "KeyN", 78, "n"⟩
  | .x => ⟨"b", "KeyB", 66, "b"⟩
  | .y => ⟨"v", "KeyV", 86, "v"⟩
  | .start => ⟨"p", "KeyP", 80, "p"⟩
  | .select => ⟨"o", "KeyO", 79, "o"⟩
  | .l => ⟨"9", "Digit9", 57, "9"⟩
  | .r => ⟨"0", "Digit0", 48, "0"⟩

/-- The two kinds of synthetic keyboard events dispatched by the injector. -/
inductive KeyEventType
  | keydown
  | keyup
deriving DecidableEq, Repr

/-- A synthetic `KeyboardEvent` as constructed by `VirtualConsole.dispatchKey`:
it carries the event type and the key / code / keyCode identity fields of the
mapping entry. -/
structure KeyEvent where
  type : KeyEventType
  key : String
  code : String
  keyCode : Nat
deriving DecidableEq, Repr

/-- `VirtualConsole.dispatchKey`: builds the synthetic KeyboardEvent from a
mapping entry (`which` duplicates `keyCode` and is not modelled separately). -/
def dispatchKey (type : KeyEventType) (map : KeyId) : KeyEvent :=
  ⟨type, map.key, map.code, map.keyCode⟩

/-- `VirtualConsole.handleButtonChange`: coerces both operands with `!!` and
dispatches one keydown/keyup event exactly when the coerced values differ.
Returns the list of dispatched events (empty or a singleton). -/
def handleButtonChange (current last : Option Bool) (map : KeyId) : List KeyEvent :=
  let isPressed := current.getD false
  let wasPressed := last.getD false
  if isPressed != wasPressed then
    [dispatchKey (if isPressed then .keydown else .keyup) map]
  else
    []

/-- `VirtualConsole.createEmptyInput`: the all-false default snapshot. -/
def createEmptyInput : ControllerInput :=
  { up := false, down := false, left := false, right := false
  , a := false, b := false, x := some false, y := some false
  , l := some false, r := some false, start := false, select := false }

/-- `VirtualConsole.updateGuestInput` (lines 91-114): diffs the new snapshot
against the stored `lastGuestInput` (or the all-false default on the first
call), dispatching one edge event per changed button in the fixed source
order, then stores a copy of the new snapshot. Returns the dispatched events
and the new value of `lastGuestInput`. -/
def updateGuestInput (lastGuestInput : Option ControllerInput)
    (input : ControllerInput) : List KeyEvent × ControllerInput :=
  let last :=
    match lastGuestInput with
    | none => createEmptyInput
    | some l => l
  let events :=
    handleButtonChange (some input.up) (some last.up) (P2_MAPPING .up) ++
    handleButtonChange (some input.down) (some last.down) (P2_MAPPING .down) ++
    handleButtonChange (some input.left) (some last.left) (P2_MAPPING .left) ++
    handleButtonChange (some input.right) (some last.right) (P2_MAPPING .right) ++
    handleButtonChange (some input.a) (some last.a) (P2_MAPPING .a) ++
    handleButtonChange (some input.b) (some last.b) (P2_MAPPING .b) ++
    handleButtonChange input.x last.x (P2_MAPPING .x) ++
    handleButtonChange input.y last.y (P2_MAPPING .y) ++
    handleButtonChange (some input.start) (some last.start) (P2_MAPPING .start) ++
    handleButtonChange (some input.select) (some last.select) (P2_MAPPING .select) ++
    handleButtonChange input.l last.l (P2_MAPPING .l) ++
    handleButtonChange input.r last.r (P2_MAPPING .r)
  (events, input)

/-- Projection of a snapshot onto a logical button, exactly as the fields are
passed to `handleButtonChange` in the source (required fields wrapped, the
four optional fields passed through). -/
def getButton (i : ControllerInput) : Button → Option Bool
  | .up => some i.up
  | .down => some i.down
  | .left => some i.left
  | .right => some i.right
  | .a => some i.a
  | .b => some i.b
  | .x => i.x
  | .y => i.y
  | .start => some i.start
  | .select => some i.select
  | .l => i.l
  | .r => i.r

/-- The order in which `updateGuestInput` visits the buttons. -/
def dispatchOrder : List Button :=
  [.up, .down, .left, .right, .a, .b, .x, .y, .start, .select, .l, .r]

/-- The coerced (`!!`) boolean value of a button in a snapshot. -/
def pressedVal (i : ControllerInput) (bt : Button) : Bool :=
  (getButton i bt).getD false

/-- The single edge event the injector emits for a changed button. -/
def edgeEvent (cur : ControllerInput) (bt : Button) : KeyEvent :=
  dispatchKey (if pressedVal cur bt then .keydown else .keyup) (P2_MAPPING bt)

theorem handleButtonChange_eq (cur last : ControllerInput) (bt : Button) :
    handleButtonChange (getButton cur bt) (getButton last bt) (P2_MAPPING bt) =
      if pressedVal cur bt != pressedVal last bt then [edgeEvent cur bt] else [] := by
  simp [handleButtonChange, pressedVal, edgeEvent]

theorem diff_join_eq (cur last : ControllerInput) (bs : List Button) :
    (bs.map (fun bt =>
        handleButtonChange (getButton cur bt) (getButton last bt) (P2_MAPPING bt))).flatten =
      (bs.filter (fun bt => pressedVal cur bt != pressedVal last bt)).map
        (edgeEvent cur) := by
  induction bs with
  | nil => rfl
  | cons bt rest ih =>
      rw [List.map_cons, List.flatten_cons, List.filter_cons, handleButtonChange_eq, ih]
      by_cases h : (pressedVal cur bt != pressedVal last bt) = true
      · simp [h]
      · simp [Bool.not_eq_true] at h
        simp [h]

theorem updateGuestInput_events (last cur : ControllerInput) :
    (updateGuestInput (some last) cur).1 =
      (dispatchOrder.filter (fun bt => pressedVal cur bt != pressedVal last bt)).map
        (edgeEvent cur) := by
  rw [← diff_join_eq cur last dispatchOrder]
  simp [updateGuestInput, dispatchOrder, getButton]

/-- C3: the input-diffing step dispatches, in the fixed source order, exactly
one key event per button whose coerced boolean value differs between the
previous and current snapshot, with type keydown exactly when the button
became pressed, and no event for unchanged buttons; diffing a snapshot
against itself dispatches no events; with no previous snapshot the previous
is taken to be the all-false default; and the new snapshot is stored
last-write-wins. -/
theorem c3_input_bridge_diff (last cur A : ControllerInput) :
    (updateGuestInput (some last) cur).1 =
      (dispatchOrder.filter (fun bt => pressedVal cur bt != pressedVal last bt)).map
        (edgeEvent cur) ∧
    (∀ bt : Button, pressedVal cur bt = pressedVal last bt →
      ∀ e ∈ (updateGuestInput (some last) cur).1, e.code ≠ (P2_MAPPING bt).code) ∧
    (updateGuestInput (some A) A).1 = [] ∧
    updateGuestInput none cur = updateGuestInput (some createEmptyInput) cur ∧
    (updateGuestInput (some last) cur).2 = cur ∧
    dispatchOrder.Nodup := by
  refine ⟨updateGuestInput_events last cur, ?_, ?_, rfl, rfl, by decide⟩
  · intro bt hb e he hcode
    rw [updateGuestInput_events last cur] at he
    rcases List.mem_map.mp he with ⟨b2, hb2, rfl⟩
    rcases List.mem_filter.mp hb2 with ⟨-, hdiff⟩
    have hbb : b2 = bt := by
      revert hcode
      cases bt <;> cases b2 <;> simp [edgeEvent, dispatchKey, P2_MAPPING]
    rw [hbb] at hdiff
    rw [hb] at hdiff
    simp at hdiff
  · rw [updateGuestInput_events A A]
    have : (dispatchOrder.filter (fun bt => pressedVal A bt != pressedVal A bt)) = [] := by
      simp
    rw [this]
    rfl

/-- Witness for C3 at a concrete pair of snapshots: pressing only `a` from
the all-false default dispatches exactly the single keydown for the P2 `a`
key (key m / KeyM / 77). -/
theorem c3_input_bridge_diff_witness :
    (updateGuestInput (some createEmptyInput)
        { createEmptyInput with a := true }).1 =
      [⟨KeyEventType.keydown, "m", "KeyM", 77⟩] := by
  have h := (c3_input_bridge_diff createEmptyInput
    { createEmptyInput with a := true } createEmptyInput).1
  rw [h]
  decide

/-- A connected native gamepad as read by `InputService.getInput`: a list of
button pressed-states and a list of analog axis values (JS numbers modelled
as rationals). -/
structure Gamepad where
  buttons : List Bool
  axes : List Rat
deriving DecidableEq, Repr

/-- `InputService.getInput` (services/inputService.ts lines 27-88): samples
the player-1 input from the set of currently pressed key codes, then merges
the primary native gamepad with OR logic and axis thresholds of one half. -/
def getInput (keysPressed : List String) (gamepad : Option Gamepad) :
    ControllerInput :=
  let has := fun (c : String) => keysPressed.contains c
  let up := has "KeyW" || has "ArrowUp"
  let down := has "KeyS" || has "ArrowDown"
  let left := has "KeyA" || has "ArrowLeft"
  let right := has "KeyD" || has "ArrowRight"
  let a := has "KeyX" || has "KeyK"
  let b := has "KeyZ" || has "KeyJ"
  let x := has "KeyI"
  let y := has "KeyU"
  let l := has "KeyQ"
  let r := has "KeyW"
  let start := has "Enter"
  let select := has "ShiftLeft" || has "ShiftRight"
  match gamepad with
  | none =>
      ⟨up, down, left, right, a, b, some x, some y, some l, some r, start, select⟩
  | some gp =>
      let btn := fun (i : Nat) => gp.buttons.getD i false
      let b := b || btn 0
      let a := a || btn 1
      let y := y || btn 2
      let x := x || btn 3
      let l := l || btn 4
      let r := r || btn 5
      let select := select || btn 8
      let start := start || btn 9
      let up := up || btn 12
      let down := down || btn 13
      let left := left || btn 14
      let right := right || btn 15
      let ax := fun (i : Nat) => gp.axes.getD i 0
      let left := left || decide (ax 0 < -(1/2 : Rat))
      let right := right || decide (ax 0 > (1/2 : Rat))
      let up := up || decide (ax 1 < -(1/2 : Rat))
      let down := down || decide (ax 1 > (1/2 : Rat))
      ⟨up, down, left, right, a, b, some x, some y, some l, some r, start, select⟩

/-- C2: refuted on the code. The player-2 mapping codes KeyI, KeyJ and KeyK
are also inspected by the player-1 sampler (as its x, b and a buttons), so
the two key sets are not disjoint: a synthetic player-2 keydown for up, left
or down, once recorded in the pressed-key set that `getInput` reads, is
observed as nonzero player-1 input. -/
theorem c2_p2_keys_observable_as_p1 :
    (P2_MAPPING .up).code = "KeyI" ∧
    (P2_MAPPING .left).code = "KeyJ" ∧
    (P2_MAPPING .down).code = "KeyK" ∧
    (getInput [(P2_MAPPING .up).code] none).x = some true ∧
    (getInput [(P2_MAPPING .left).code] none).b = true ∧
    (getInput [(P2_MAPPING .down).code] none).a = true ∧
    getInput [(P2_MAPPING .up).code] none ≠ getInput [] none := by
  decide

/-- The `ball` field of `GameState` from types.ts. -/
structure Ball where
  x : Int
  y : Int
  dx : Int
  dy : Int
deriving DecidableEq, Repr

/-- `PlayerState` from types.ts. -/
structure PlayerState where
  id : String
  connected : Bool
  color : String
  x : Int
  y : Int
  input : ControllerInput
deriving DecidableEq, Repr

/-- `GameState` from types.ts. -/
structure GameState where
  p1 : PlayerState
  p2 : PlayerState
  ball : Option Ball
  timestamp : Nat
deriving DecidableEq, Repr

/-- `PeerMessage` from types.ts: a tagged union over the wire. SAVE_RESTORE
and CHAT appear in the type union but carry no payload anywhere in the
source, so they are modelled as payload-free tags. -/
inductive PeerMessage
  | input (payload : ControllerInput)
  | stateUpdate (payload : GameState)
  | platformChange (payload : Platform)
  | romLoad (name : String)
  | saveRestore
  | chat
deriving DecidableEq, Repr

/-- The mutable fields of a `VirtualConsole` instance. DOM handles are
modelled by presence booleans (`nostalgist`, `wrapper`). -/
structure VCState where
  platform : Platform
  romName : String
  isRomLoaded : Bool
  state : GameState
  isHost : Bool
  nostalgist : Bool
  isLaunching : Bool
  isDestroyed : Bool
  wrapper : Bool
  lastGuestInput : Option ControllerInput
deriving DecidableEq, Repr

/-- `VirtualConsole.createPlayer`: note the initializer omits the optional
x/y/l/r buttons, leaving them undefined. -/
def createPlayer (id : String) (color : String) (x y : Int) : PlayerState :=
  { id := id, connected := false, color := color, x := x, y := y
  , input := { up := false, down := false, left := false, right := false
             , a := false, b := false, x := none, y := none, l := none, r := none
             , start := false, select := false } }

/-- The initial `GameState` built in the `VirtualConsole` constructor
(`now` stands for `Date.now()`). -/
def initGameState (now : Nat) : GameState :=
  { p1 := createPlayer "p1" "#ef4444" 100 200
  , p2 := createPlayer "p2" "#3b82f6" 500 200
  , ball := some ⟨320, 240, 4, 4⟩
  , timestamp := now }

/-- The state of a freshly constructed `VirtualConsole`. -/
def initConsole (isHost : Bool) (now : Nat) : VCState :=
  { platform := .SNES, romName := "No Cartridge Inserted", isRomLoaded := false
  , state := initGameState now, isHost := isHost, nostalgist := false
  , isLaunching := false, isDestroyed := false, wrapper := false
  , lastGuestInput := none }

/-- `VirtualConsole.destroyEmulator`: exits and drops the emulator instance
and removes the wrapper element. -/
def destroyEmulator (vc : VCState) : VCState :=
  { vc with nostalgist := false, wrapper := false }

/-- `VirtualConsole.stop` (lines 303-309): clears the loaded-ROM flag and
name, clears `lastGuestInput`, and tears the emulator down. -/
def stop (vc : VCState) : VCState :=
  destroyEmulator
    { vc with
        isRomLoaded := false, romName := "No Cartridge Inserted",
        lastGuestInput := none }

/-- The player argument of `setPlayerConnected`. -/
inductive PlayerId
  | p1
  | p2
deriving DecidableEq, Repr

/-- `VirtualConsole.setPlayerConnected` (lines 462-464). -/
def setPlayerConnected (vc : VCState) (pid : PlayerId) (isConnected : Bool) :
    VCState :=
  match pid with
  | .p1 => { vc with state :=
      { vc.state with p1 := { vc.state.p1 with connected := isConnected } } }
  | .p2 => { vc with state :=
      { vc.state with p2 := { vc.state.p2 with connected := isConnected } } }

/-- `VirtualConsole.setState`. -/
def setState (vc : VCState) (newState : GameState) : VCState :=
  { vc with state := newState }

/-- `VirtualConsole.reset`: restarts the emulator when one is running
(external effect, no modelled state change) and recenters the fallback
simulation state. -/
def reset (vc : VCState) : VCState :=
  { vc with state :=
      { vc.state with
        ball := some ⟨320, 240, 4, 4⟩
      , p1 := { vc.state.p1 with x := 100 }
      , p2 := { vc.state.p2 with x := 500 } } }

/-- `VirtualConsole.setPlatform` (lines 466-474). -/
def setPlatform (vc : VCState) (platform : Platform) : VCState :=
  if vc.isDestroyed then vc
  else
    reset (destroyEmulator
      { vc with
          platform := platform, romName := "No Cartridge Inserted",
          isRomLoaded := false })

/-- The App-level session state used by the connection and message handlers
(App.tsx): role, platform and romName mirror the React state refs, `connRef`
records whether a data connection object is held, `console` is the
`VirtualConsole` instance if one was created. -/
structure AppState where
  role : ConnectionRole
  platform : Platform
  romName : Option String
  connRef : Bool
  console : Option VCState
deriving DecidableEq, Repr

/-- The `close` handler installed by `handleConnection` (App.tsx lines
166-172): drops the connection object and marks player 2 disconnected on the
console if one exists. -/
def handleConnectionClose (app : AppState) : AppState :=
  let app1 := { app with connRef := false }
  match app1.console with
  | none => app1
  | some c => { app1 with console := some (setPlayerConnected c .p2 false) }

/-- The `open` handler installed by `handleConnection` (App.tsx lines
150-159): when a console exists and the role is HOST, sends PLATFORM_CHANGE
with the current platform, then, only if a ROM name is loaded, sends
ROM_LOAD and starts streaming. Returns the messages sent in order and
whether streaming was started. -/
def handleConnectionOpen (app : AppState) : List PeerMessage × Bool :=
  match app.console with
  | none => ([], false)
  | some _ =>
      if app.role = ConnectionRole.HOST then
        match app.romName with
        | some nm => ([.platformChange app.platform, .romLoad nm], true)
        | none => ([.platformChange app.platform], false)
      else ([], false)

/-- `handlePeerMessage` (App.tsx lines 187-212). Returns the new app state
and the synthetic key events dispatched while handling (the INPUT case body
for the HOST role is an empty stub in the source, so no branch stores the
payload or dispatches anything). -/
def handlePeerMessage (app : AppState) (msg : PeerMessage) :
    AppState × List KeyEvent :=
  match app.console with
  | none => (app, [])
  | some c =>
      match msg with
      | .input _ => (app, [])
      | .stateUpdate payload =>
          if app.role = ConnectionRole.GUEST then
            ({ app with console := some (setState c payload) }, [])
          else (app, [])
      | .platformChange p =>
          ({ app with
                platform := p, romName := none,
                console := some (setPlatform c p) }, [])
      | .romLoad nm => ({ app with romName := some nm }, [])
      | .saveRestore => (app, [])
      | .chat => (app, [])

/-- The messages the GUEST branch of `gameLoop` (App.tsx lines 253-257)
sends on one tick: the sampled local input, exactly when the data connection
is open; nothing depends on the platform or the loaded ROM. -/
def gameLoopGuestMessages (connOpen : Bool) (myInput : ControllerInput) :
    List PeerMessage :=
  if connOpen then [.input myInput] else []

/-- A snapshot with only the `a` button pressed. -/
def aPressedSnapshot : ControllerInput := { createEmptyInput with a := true }

/-- A HOST session with a live console and connection and no stored guest
snapshot. -/
def hostApp0 : AppState :=
  { role := .HOST, platform := .SNES, romName := none, connRef := true
  , console := some (initConsole true 0) }

/-- C1: refuted on the code. The INPUT case of `handlePeerMessage` is an
empty stub, so an INPUT-tagged message received by the Host changes nothing:
the payload snapshot is never stored as the remote player state and
`updateGuestInput` is never invoked; in particular the concrete Host session
`hostApp0` is returned unchanged with no dispatched events. -/
theorem c1_input_message_dropped :
    (forall (app : AppState) (snap : ControllerInput),
      handlePeerMessage app (.input snap) = (app, [])) ∧
    handlePeerMessage hostApp0 (.input aPressedSnapshot) = (hostApp0, []) ∧
    hostApp0.role = ConnectionRole.HOST ∧
    hostApp0.console.map VCState.lastGuestInput = some none := by
  refine ⟨?_, rfl, rfl, rfl⟩
  intro app snap
  cases h : app.console <;> simp [handlePeerMessage, h]

/-- A HOST session holding a stored guest snapshot with a pressed button at
the moment the data connection closes. -/
def hostAppWithGuestInput : AppState :=
  { role := .HOST, platform := .SNES, romName := some "game.sfc"
  , connRef := true
  , console := some
      { initConsole true 0 with
        isRomLoaded := true, romName := "game.sfc", nostalgist := true
      , wrapper := true, lastGuestInput := some aPressedSnapshot } }

/-- C4: refuted on the code. The close handler never touches
`lastGuestInput` (only `stop` clears it): after handling the disconnect the
injector still holds the most recent remote snapshot, shown both in general
and on the concrete state `hostAppWithGuestInput`. -/
theorem c4_disconnect_keeps_last_snapshot :
    (forall app : AppState,
      (handleConnectionClose app).console.map VCState.lastGuestInput =
        app.console.map VCState.lastGuestInput) ∧
    ((handleConnectionClose hostAppWithGuestInput).console.map
        VCState.lastGuestInput = some (some aPressedSnapshot)) ∧
    (stop (initConsole true 0)).lastGuestInput = none := by
  refine ⟨?_, rfl, rfl⟩
  intro app
  cases h : app.console <;> simp [handleConnectionClose, h, setPlayerConnected]

/-- Helper: the HOST app state seen by the open handler. -/
def hostOpenApp (p : Platform) (rn : Option String) (c : VCState) (cr : Bool) :
    AppState :=
  { role := .HOST, platform := p, romName := rn, connRef := cr
  , console := some c }

/-- C5: on data-connection open with a console present and the local role
HOST, a PLATFORM_CHANGE message carrying the current platform is always sent
first; a ROM_LOAD message and the start of media streaming follow exactly
when a ROM name is currently loaded; with no ROM loaded only PLATFORM_CHANGE
is sent and no streaming begins. -/
theorem c5_open_handler_messages (p : Platform) (rn : Option String)
    (c : VCState) (cr : Bool) :
    (handleConnectionOpen (hostOpenApp p rn c cr)).1.head? =
        some (.platformChange p) ∧
    (∀ nm, PeerMessage.romLoad nm ∈ (handleConnectionOpen (hostOpenApp p rn c cr)).1 ↔
        rn = some nm) ∧
    (handleConnectionOpen (hostOpenApp p rn c cr)).2 = rn.isSome ∧
    (rn = none →
      handleConnectionOpen (hostOpenApp p rn c cr) = ([.platformChange p], false)) := by
  cases rn <;> simp [handleConnectionOpen, hostOpenApp, eq_comm]

/-- Witness for C5 at concrete inputs: with no ROM loaded the handler sends
exactly one PLATFORM_CHANGE and starts no stream. -/
theorem c5_open_handler_messages_witness :
    handleConnectionOpen (hostOpenApp .SNES none (initConsole true 0) true) =
      ([.platformChange .SNES], false) :=
  (c5_open_handler_messages .SNES none (initConsole true 0) true).2.2.2 rfl

/-- The console state held by `hostAppWithGuestInput`. -/
def gameConsole : VCState :=
  { initConsole true 0 with
    isRomLoaded := true, romName := "game.sfc", nostalgist := true
  , wrapper := true, lastGuestInput := some aPressedSnapshot }

/-- C8: handling a data-connection close only flips player 2 connected to
false on the console: the emulator instance, loaded-ROM flag, ROM name,
platform and player-1 state are untouched, the app-level role, platform and
ROM name are untouched, and the guest loop resumes sending INPUT on any open
connection with no dependence on a platform or ROM resend. -/
theorem c8_disconnect_preserves_host_session (app : AppState) (c : VCState)
    (h : app.console = some c) :
    (handleConnectionClose app).console = some (setPlayerConnected c .p2 false) ∧
    (setPlayerConnected c .p2 false).nostalgist = c.nostalgist ∧
    (setPlayerConnected c .p2 false).isRomLoaded = c.isRomLoaded ∧
    (setPlayerConnected c .p2 false).romName = c.romName ∧
    (setPlayerConnected c .p2 false).platform = c.platform ∧
    (setPlayerConnected c .p2 false).state.p1 = c.state.p1 ∧
    (setPlayerConnected c .p2 false).state.p2.connected = false ∧
    (handleConnectionClose app).role = app.role ∧
    (handleConnectionClose app).platform = app.platform ∧
    (handleConnectionClose app).romName = app.romName ∧
    (∀ inp, gameLoopGuestMessages true inp = [.input inp]) := by
  refine ⟨?_, rfl, rfl, rfl, rfl, rfl, rfl, ?_, ?_, ?_, fun inp => rfl⟩ <;>
    simp [handleConnectionClose, h]

/-- Witness for C8 at the concrete disconnect state. -/
theorem c8_disconnect_preserves_host_session_witness :
    (handleConnectionClose hostAppWithGuestInput).console =
      some (setPlayerConnected gameConsole .p2 false) :=
  (c8_disconnect_preserves_host_session hostAppWithGuestInput gameConsole rfl).1

/-- The outcome of one `loadRom` call. -/
inductive LoadOutcome
  | earlyReturn
  | aborted
  | launched
  | failed (msg : String)
deriving DecidableEq, Repr

/-- The resolutions of the asynchronous steps awaited inside `loadRom`:
whether the emulation library import succeeds, whether `destroy` ran during
the teardown await or during the launch await, whether the container is
attached, whether the canvas attached, and whether the launch call
succeeds. -/
structure LoadEnv where
  libOk : Bool
  destroyedDuringTeardown : Bool
  containerConnected : Bool
  canvasAttached : Bool
  launchOk : Bool
  destroyedDuringLaunch : Bool
deriving DecidableEq, Repr

/-- The catch block of `loadRom`: drops the loaded flag, marks the ROM name
as an error, and tears the emulator down before rethrowing. -/
def loadRomCatch (vc : VCState) : VCState :=
  destroyEmulator { vc with isRomLoaded := false, romName := "Error Loading ROM" }

/-- `VirtualConsole.loadRom` (lines 172-289): guarded against destroyed and
already-launching instances, tears down any previous emulator, builds the
wrapper and canvas, launches, and in a finally clause always clears the
launching flag. -/
def loadRom (vc : VCState) (fileName : String) (env : LoadEnv) :
    VCState × LoadOutcome :=
  if vc.isDestroyed then (vc, .earlyReturn)
  else if vc.isLaunching then (vc, .earlyReturn)
  else
    let vc1 := { vc with isLaunching := true }
    if !env.libOk then
      ({ loadRomCatch vc1 with isLaunching := false },
        .failed "Nostalgist library unavailable.")
    else
      let vc2 := destroyEmulator vc1
      let vc3 :=
        if env.destroyedDuringTeardown then { vc2 with isDestroyed := true } else vc2
      if vc3.isDestroyed then ({ vc3 with isLaunching := false }, .aborted)
      else
        let vc4 := { vc3 with romName := fileName }
        if !env.containerConnected then
          ({ loadRomCatch vc4 with isLaunching := false },
            .failed "Emulator container is missing or detached from DOM.")
        else
          let vc5 := { vc4 with wrapper := true }
          if !env.canvasAttached then
            ({ loadRomCatch vc5 with isLaunching := false },
              .failed "Canvas element failed to attach to DOM")
          else if !env.launchOk then
            ({ loadRomCatch vc5 with isLaunching := false }, .failed "launch error")
          else
            let vc6 := { vc5 with nostalgist := true }
            let vc7 :=
              if env.destroyedDuringLaunch then { vc6 with isDestroyed := true } else vc6
            if vc7.isDestroyed then
              ({ vc7 with nostalgist := false, isLaunching := false }, .aborted)
            else
              ({ vc7 with isRomLoaded := true, isLaunching := false }, .launched)

/-- C9: calling `loadRom` on a destroyed console, or while a previous load
is still in flight, returns immediately with the state untouched; and from
any non-launching state the launching flag is false again once the call
completes or fails, whatever the asynchronous steps did. -/
theorem c9_load_rom_guards (vc : VCState) (fileName : String) (env : LoadEnv) :
    (vc.isDestroyed = true → loadRom vc fileName env = (vc, .earlyReturn)) ∧
    (vc.isLaunching = true → loadRom vc fileName env = (vc, .earlyReturn)) ∧
    (vc.isLaunching = false → (loadRom vc fileName env).1.isLaunching = false) := by
  refine ⟨?_, ?_, ?_⟩
  · intro h
    simp [loadRom, h]
  · intro h
    simp [loadRom, h]
  · intro h
    rcases env with ⟨libOk, ddt, cc, ca, lo, ddl⟩
    cases hd : vc.isDestroyed <;> cases libOk <;> cases ddt <;> cases cc <;>
      cases ca <;> cases lo <;> cases ddl <;>
        simp [loadRom, loadRomCatch, destroyEmulator, h, hd]

/-- All awaited steps succeed and no concurrent destroy happens. -/
def envAllOk : LoadEnv :=
  { libOk := true, destroyedDuringTeardown := false, containerConnected := true
  , canvasAttached := true, launchOk := true, destroyedDuringLaunch := false }

/-- Witness for C9 at concrete inputs: the destroyed guard, the in-flight
guard, and the cleared launching flag after a successful load. -/
theorem c9_load_rom_guards_witness :
    loadRom { initConsole true 0 with isDestroyed := true } "game.sfc" envAllOk =
      ({ initConsole true 0 with isDestroyed := true }, .earlyReturn) ∧
    loadRom { initConsole true 0 with isLaunching := true } "game.sfc" envAllOk =
      ({ initConsole true 0 with isLaunching := true }, .earlyReturn) ∧
    (loadRom (initConsole true 0) "game.sfc" envAllOk).1.isLaunching = false :=
  ⟨(c9_load_rom_guards _ "game.sfc" envAllOk).1 rfl,
   (c9_load_rom_guards _ "game.sfc" envAllOk).2.1 rfl,
   (c9_load_rom_guards _ "game.sfc" envAllOk).2.2 rfl⟩

/-- Identifier of an audio-processing context (`AudioContext`). -/
abbrev CtxId := Nat

/-- The state of a browser audio context. -/
inductive CtxState
  | suspended
  | running
  | closed
deriving DecidableEq, Repr

/-- The fields of the `AudioService` singleton: master volume, the set of
captured contexts (insertion order), the gain-node map as an association
list from context to its gain value, and the internally owned context. -/
structure AudioState where
  masterVolume : Rat
  contexts : List CtxId
  gainNodes : List (CtxId × Rat)
  internalCtx : Option CtxId
deriving DecidableEq, Repr

/-- Field initializers of `AudioService` before the constructor body runs. -/
def freshAudioState : AudioState :=
  { masterVolume := 1/2, contexts := [], gainNodes := [], internalCtx := none }

/-- The `window.AudioContext` constructor slot: how many registering wrapper
layers surround the original constructor, and whether the current value
carries the patched marker. -/
structure WindowAC where
  hookLayers : Nat
  isPatched : Bool
deriving DecidableEq, Repr

/-- `AudioService.patchAudioContext` (lines 32-57): a no-op when the current
constructor already carries the patched marker, otherwise wraps it in one
registering subclass and marks it. -/
def patchAudioContext (w : WindowAC) : WindowAC :=
  if w.isPatched then w
  else { hookLayers := w.hookLayers + 1, isPatched := true }

/-- `AudioService.registerContext` (lines 59-86): a no-op for a context
already in the set, otherwise adds the context and one gain node preloaded
with the master volume (the destination redirect is an external effect). -/
def registerContext (s : AudioState) (ctx : CtxId) : AudioState :=
  if ctx ∈ s.contexts then s
  else
    { s with
      contexts := s.contexts ++ [ctx]
    , gainNodes := s.gainNodes ++ [(ctx, s.masterVolume)] }

/-- Registration applied once per wrapper layer. -/
def registerTimes : Nat → AudioState → CtxId → AudioState
  | 0, s, _ => s
  | k + 1, s, ctx => registerContext (registerTimes k s ctx) ctx

/-- Constructing an audio context while the hook slot is `w`: every wrapper
layer of the patched constructor registers the new context once. -/
def createContext (w : WindowAC) (s : AudioState) (ctx : CtxId) : AudioState :=
  registerTimes w.hookLayers s ctx

theorem registerContext_idem (s : AudioState) (ctx : CtxId) :
    registerContext (registerContext s ctx) ctx = registerContext s ctx := by
  by_cases h : ctx ∈ s.contexts
  · simp [registerContext, h]
  · simp [registerContext, h]

theorem registerTimes_succ_eq (s : AudioState) (ctx : CtxId) (n : Nat) :
    registerTimes (n + 1) s ctx = registerContext s ctx := by
  induction n with
  | zero => rfl
  | succ k ih =>
      show registerContext (registerTimes (k + 1) s ctx) ctx = registerContext s ctx
      rw [ih, registerContext_idem]

/-- C7: the factory hook is installed at most once (a second installation
attempt is a no-op thanks to the patched marker, and installation is
idempotent), re-registering an already registered context is a no-op, a new
context enters the context set and the gain-node map exactly once, and a
context constructed while the hook is active (any positive number of
wrapper layers) is registered exactly as if registered once. -/
theorem c7_hook_install_and_registration (w : WindowAC) (s : AudioState)
    (ctx : CtxId) :
    (w.isPatched = true → patchAudioContext w = w) ∧
    patchAudioContext (patchAudioContext w) = patchAudioContext w ∧
    registerContext (registerContext s ctx) ctx = registerContext s ctx ∧
    (ctx ∉ s.contexts → ctx ∉ s.gainNodes.map Prod.fst →
      (registerContext s ctx).contexts.count ctx = 1 ∧
      ((registerContext s ctx).gainNodes.map Prod.fst).count ctx = 1) ∧
    (∀ n, createContext ⟨n + 1, true⟩ s ctx = registerContext s ctx) := by
  refine ⟨?_, ?_, registerContext_idem s ctx, ?_, ?_⟩
  · intro h
    simp [patchAudioContext, h]
  · by_cases h : w.isPatched <;> simp [patchAudioContext, h]
  · intro h1 h2
    constructor
    · simp [registerContext, h1, List.count_eq_zero_of_not_mem h1]
    · simp [registerContext, h1, List.count_eq_zero_of_not_mem h2]
  · intro n
    exact registerTimes_succ_eq s ctx n

/-- Witness for C7 at concrete inputs: a second installation on an already
patched slot changes nothing, and registering a fresh context yields exactly
one entry in the context set and the gain-node map. -/
theorem c7_hook_install_and_registration_witness :
    patchAudioContext ⟨1, true⟩ = (⟨1, true⟩ : WindowAC) ∧
    (registerContext freshAudioState 5).contexts.count 5 = 1 ∧
    ((registerContext freshAudioState 5).gainNodes.map Prod.fst).count 5 = 1 :=
  ⟨(c7_hook_install_and_registration ⟨1, true⟩ freshAudioState 5).1 rfl,
   ((c7_hook_install_and_registration ⟨1, true⟩ freshAudioState 5).2.2.2.1
      (by decide) (by decide)).1,
   ((c7_hook_install_and_registration ⟨1, true⟩ freshAudioState 5).2.2.2.1
      (by decide) (by decide)).2⟩

/-- `AudioService.setVolume` (lines 99-113): clamps the value to [0,1],
stores it as the master volume, assigns it to every gain node in the map,
and requests a resume on every gain node whose context is suspended at the
time. Returns the new service state and the contexts resume was invoked
on. -/
def setVolume (s : AudioState) (val : Rat) (ctxState : CtxId → CtxState) :
    AudioState × List CtxId :=
  let mv := max 0 (min 1 val)
  ({ s with
     masterVolume := mv
   , gainNodes := s.gainNodes.map (fun pr => (pr.1, mv)) }
  , (s.gainNodes.map Prod.fst).filter (fun c => ctxState c == .suspended))

/-- An `AudioService` state with three contexts registered right after
construction. -/
def threeCtxService : AudioState :=
  registerContext (registerContext (registerContext freshAudioState 0) 1) 2

/-- C6: `setVolume` stores the input clamped into [0,1] as the master
volume and synchronously assigns that clamped value to the gain node of
every context registered at the time of the call (the set of registered
contexts itself is unchanged); concretely 1.5 yields gain 1, -1 yields 0,
and 0.3 with three registered contexts updates all three gain nodes to
0.3. -/
theorem c6_set_volume_clamps_and_applies (s : AudioState) (val : Rat)
    (ctxState : CtxId → CtxState) :
    (setVolume s val ctxState).1.masterVolume = max 0 (min 1 val) ∧
    (∀ pr ∈ (setVolume s val ctxState).1.gainNodes, pr.2 = max 0 (min 1 val)) ∧
    (setVolume s val ctxState).1.gainNodes.map Prod.fst =
      s.gainNodes.map Prod.fst ∧
    (setVolume s (3/2) ctxState).1.masterVolume = 1 ∧
    (setVolume s (-1) ctxState).1.masterVolume = 0 ∧
    (setVolume threeCtxService (3/10) ctxState).1.gainNodes =
      [(0, 3/10), (1, 3/10), (2, 3/10)] := by
  refine ⟨rfl, ?_, ?_, ?_, ?_, ?_⟩
  · intro pr hpr
    simp [setVolume] at hpr
    rcases hpr with ⟨q, hq, rfl⟩
    rfl
  · simp [setVolume]
  · show max 0 (min 1 (3/2 : Rat)) = 1
    norm_num
  · show max 0 (min 1 (-1 : Rat)) = 0
    norm_num
  · show (threeCtxService.gainNodes.map fun pr => (pr.1, max 0 (min 1 (3/10 : Rat)))) =
      [(0, 3/10), (1, 3/10), (2, 3/10)]
    norm_num [threeCtxService, registerContext, freshAudioState]

/-- Witness for C6 at concrete inputs, via the theorem. -/
theorem c6_set_volume_clamps_and_applies_witness :
    (setVolume threeCtxService (3/10) (fun _ => CtxState.running)).1.gainNodes =
      [(0, 3/10), (1, 3/10), (2, 3/10)] :=
  (c6_set_volume_clamps_and_applies threeCtxService (3/10)
    (fun _ => CtxState.running)).2.2.2.2.2

/-- The process-wide state the `AudioService` constructor touches: the
`window.AudioContext` slot, the static singleton field, fresh-object and
fresh-context counters, and the singleton state itself. -/
structure AudioGlobal where
  window : WindowAC
  instanceRef : Option Nat
  nextServiceId : Nat
  nextCtxId : Nat
  svc : AudioState
deriving DecidableEq, Repr

/-- The `AudioService` constructor (lines 8-26): returns the existing
singleton when one is set; otherwise records the new object as the
singleton, installs the factory hook, and creates the internal context
through the patched constructor (which registers it). Returns the new
global state and the identity of the returned object. -/
def constructAudioService (g : AudioGlobal) : AudioGlobal × Nat :=
  match g.instanceRef with
  | some i => (g, i)
  | none =>
      let sid := g.nextServiceId
      let g1 :=
        { g with
          instanceRef := some sid, nextServiceId := sid + 1
        , svc := freshAudioState }
      let g2 := { g1 with window := patchAudioContext g1.window }
      let ctx := g2.nextCtxId
      let g3 :=
        { g2 with
          nextCtxId := ctx + 1
        , svc := { createContext g2.window g2.svc ctx with internalCtx := some ctx } }
      (g3, sid)

/-- C10: constructing `AudioService` a second time returns the identity of
the already-existing first instance and leaves the process state untouched,
so every session shares the one singleton (with its single master volume,
context set and gain-node map); afterwards the singleton slot holds exactly
the returned object. -/
theorem c10_audio_service_singleton (g : AudioGlobal) :
    constructAudioService (constructAudioService g).1 =
      ((constructAudioService g).1, (constructAudioService g).2) ∧
    (constructAudioService g).1.instanceRef = some (constructAudioService g).2 := by
  cases h : g.instanceRef <;> simp [constructAudioService, h]

end RetroLink
